import Mathlib

/-!
# Shallow embedding of the deadlock-proof mutex crate

This file embeds `src/lib.rs` of the `deadlock_proof_mutex` crate in Lean 4.
The crate is a thin permission-token layer over `std::sync::Mutex`; the
platform mutex itself (value storage, poisoning, the `lock` result) is
modelled explicitly as functional state, and each function of the crate is
translated directly from its Rust body.

Conventions of the embedding:
* A platform mutex `std::sync::Mutex<T>` is a state `MutexSt T`: the
  protected value plus the poison flag.
* A platform guard `std::sync::MutexGuard<T>` holds the current view of the
  protected value; writing through the guard updates that view, and dropping
  the guard writes the view back into the mutex state (this is the implicit
  `Drop` of `MutexGuard`, which every release path of the crate uses).
* Rust's `Result<A, E>` is `Except E A`; `Result::map` is `Except.map`.
* A Rust call that may unwind is given result type `RustOutcome`, which
  separates a normal return from a panic with its message.
-/

/-- Outcome of a Rust call: a normal return, or a panic (unwinding)
carrying the panic message. -/
inductive RustOutcome (A : Type) where
  | returned (a : A)
  | panicked (msg : String)
deriving Repr, DecidableEq

/-- Whether a `RustOutcome` is a normal return (surfaced by return value)
rather than an unwind. -/
def RustOutcome.isReturned {A : Type} : RustOutcome A → Bool
  | .returned _ => true
  | .panicked _ => false

/-- State of a platform mutex `std::sync::Mutex<T>` (an external primitive
the crate wraps): the protected value and the poison flag.
`Mutex::new` produces an unpoisoned state. -/
structure MutexSt (T : Type) where
  value : T
  poisoned : Bool
deriving Repr, DecidableEq

/-- A platform guard `std::sync::MutexGuard<T>`: exclusive access to the
protected value; `value` is the current view seen (and written) through
the guard. -/
structure MutexGuard (T : Type) where
  value : T
deriving Repr, DecidableEq

/-- `std::sync::PoisonError<G>`: the poison error returned by the platform
mutex, carrying the recovery handle (`PoisonError::into_inner`) from which
the protected value may still be read. -/
structure PoisonError (G : Type) where
  guard : G
deriving Repr, DecidableEq

/-- Platform `Mutex::lock`: returns `Err(PoisonError(guard))` when the mutex
is poisoned, `Ok(guard)` otherwise.  In both cases the handle gives the
current protected value. -/
def MutexSt.lock {T : Type} (m : MutexSt T) :
    Except (PoisonError (MutexGuard T)) (MutexGuard T) :=
  if m.poisoned then Except.error ⟨⟨m.value⟩⟩ else Except.ok ⟨m.value⟩

/-- Dropping a platform guard (the implicit `Drop` of `MutexGuard`): the
view held by the guard becomes the mutex's stored value; the poison flag is
untouched. -/
def MutexSt.dropGuard {T : Type} (m : MutexSt T) (g : MutexGuard T) : MutexSt T :=
  ⟨g.value, m.poisoned⟩

/-- Platform `Mutex::clear_poison`: the caller's explicit reset of the
poison flag; the stored value is untouched. -/
def MutexSt.clear_poison {T : Type} (m : MutexSt T) : MutexSt T :=
  ⟨m.value, false⟩

/-- `OuterMutexPermission(PhantomData<Rc<()>>)` (lib.rs:42): the zero-sized
root capability.  The `Rc` phantom only makes it `!Send`; it carries no
data. -/
structure OuterMutexPermission where
deriving Repr, DecidableEq

/-- The panic message of `OuterMutexPermission::get` (lib.rs:59), the
crate's double-claim condition. -/
def doubleClaimMsg : String := "Mutex permission already claimed for this thread"

/-- Initial content of the thread-local slot `MUTEX_PERMISSION_TOKEN`
(lib.rs:44-47): a `Cell<Option<OuterMutexPermission>>` that starts with
exactly one element. -/
def MUTEX_PERMISSION_TOKEN : Option OuterMutexPermission :=
  some OuterMutexPermission.mk

/-- `OuterMutexPermission::get` (lib.rs:56-61), as a transition on the
thread-local slot: `Cell::take` drains the slot (leaving `None`), then
`Option::expect` returns the drained permission or panics with
`doubleClaimMsg`.  Nothing in the crate ever writes the slot again — in
particular `OuterMutexPermission` has no `Drop` impl, so dropping the
permission does not refill it — so `get` is the only operation on the
slot. -/
def OuterMutexPermission.get (slot : Option OuterMutexPermission) :
    RustOutcome OuterMutexPermission × Option OuterMutexPermission :=
  match slot with
  | some p => (RustOutcome.returned p, none)
  | none => (RustOutcome.panicked doubleClaimMsg, none)

/-- Outcome and slot state of the `(n+1)`-st call of
`OuterMutexPermission.get` on one thread, starting from slot state
`slot`. -/
def getIter : Nat → Option OuterMutexPermission →
    RustOutcome OuterMutexPermission × Option OuterMutexPermission
  | 0, slot => OuterMutexPermission.get slot
  | n + 1, slot => getIter n (OuterMutexPermission.get slot).2

/-- `NestedMutexPermission<P, I>` (lib.rs:65-69): a zero-sized capability;
all three fields are `PhantomData`, so a value carries no information
beyond its type. -/
structure NestedMutexPermission (P : Type) (I : Type) where
deriving Repr, DecidableEq

/-- `SequentialMutexPermission<P, I>` (lib.rs:75-79): wraps the permission
token earlier in the sequence (field `.1` of the Rust tuple struct; the
other two fields are `PhantomData`). -/
structure SequentialMutexPermission (P : Type) (I : Type) where
  perm : P
deriving Repr, DecidableEq

/-- `SequentialMutexPermission::new` (lib.rs:82-84). -/
def SequentialMutexPermission.new {P I : Type} (permission : P) :
    SequentialMutexPermission P I :=
  ⟨permission⟩

/-- `SequentialMutexPermission::to_earlier` (lib.rs:88-90): consumes `self`
and returns the wrapped earlier permission. -/
def SequentialMutexPermission.to_earlier {P I : Type}
    (s : SequentialMutexPermission P I) : P :=
  s.perm

/-- `DeadlockProofMutex<T, P, I>` (lib.rs:126-130): a platform mutex over
`T`; `P` and `I` are phantom parameters. -/
structure DeadlockProofMutex (T : Type) (P : Type) (I : Type) where
  mutex : MutexSt T
deriving Repr, DecidableEq

/-- `DeadlockProofMutexGuard<T, P, I>` (lib.rs:178-182): the platform guard
(field `.0`) together with the captured permission (field `.1`). -/
structure DeadlockProofMutexGuard (T : Type) (P : Type) (I : Type) where
  guard : MutexGuard T
  permission : P
deriving Repr, DecidableEq

/-- `DeadlockProofNestedMutexGuard<T, P, I>` (lib.rs:218-222): identical
shape to the plain guard. -/
structure DeadlockProofNestedMutexGuard (T : Type) (P : Type) (I : Type) where
  guard : MutexGuard T
  permission : P
deriving Repr, DecidableEq

/-- `DeadlockProofMutex::new` (lib.rs:137-139): moves `content` into a fresh
platform mutex; the `_identifier` witness is consumed only to fix `I` and is
otherwise discarded. -/
def DeadlockProofMutex.new {T P I : Type} (content : T) (_identifier : I) :
    DeadlockProofMutex T P I :=
  ⟨⟨content, false⟩⟩

/-- `DeadlockProofMutex::lock` (lib.rs:144-151): `self.0.lock().map(|guard|
DeadlockProofMutexGuard(guard, permission, PhantomData))`. -/
def DeadlockProofMutex.lock {T P I : Type} (m : DeadlockProofMutex T P I)
    (permission : P) :
    Except (PoisonError (MutexGuard T)) (DeadlockProofMutexGuard T P I) :=
  m.mutex.lock.map (fun guard => ⟨guard, permission⟩)

/-- `DeadlockProofMutex::lock_for_nested` (lib.rs:156-172): same platform
acquisition; additionally emits a fresh `NestedMutexPermission`
(all-`PhantomData` value). -/
def DeadlockProofMutex.lock_for_nested {T P I : Type}
    (m : DeadlockProofMutex T P I) (permission : P) :
    Except (PoisonError (MutexGuard T))
      (DeadlockProofNestedMutexGuard T P I × NestedMutexPermission P I) :=
  m.mutex.lock.map (fun guard => (⟨guard, permission⟩, ⟨⟩))

/-- `DeadlockProofMutexGuard::unlock` (lib.rs:187-189): returns the captured
permission (`self.1`); dropping `self` releases the platform mutex. -/
def DeadlockProofMutexGuard.unlock {T P I : Type}
    (g : DeadlockProofMutexGuard T P I) : P :=
  g.permission

/-- `DeadlockProofMutexGuard::unlock_for_sequential` (lib.rs:196-198):
`SequentialMutexPermission::new(self.1)`. -/
def DeadlockProofMutexGuard.unlock_for_sequential {T P I : Type}
    (g : DeadlockProofMutexGuard T P I) : SequentialMutexPermission P I :=
  SequentialMutexPermission.new g.permission

/-- `Deref for DeadlockProofMutexGuard` (lib.rs:201-207): read the protected
value through the platform guard. -/
def DeadlockProofMutexGuard.deref {T P I : Type}
    (g : DeadlockProofMutexGuard T P I) : T :=
  g.guard.value

/-- `DerefMut for DeadlockProofMutexGuard` (lib.rs:209-213), as a functional
write: `*guard = v` replaces the view held by the platform guard. -/
def DeadlockProofMutexGuard.deref_mut_set {T P I : Type}
    (g : DeadlockProofMutexGuard T P I) (v : T) :
    DeadlockProofMutexGuard T P I :=
  ⟨⟨v⟩, g.permission⟩

/-- The state of the cell after a plain guard's life ends (by `unlock`,
`unlock_for_sequential`, or drop): the inner platform guard `self.0` is
dropped, writing its view back. -/
def DeadlockProofMutexGuard.release {T P I : Type}
    (m : DeadlockProofMutex T P I) (g : DeadlockProofMutexGuard T P I) :
    DeadlockProofMutex T P I :=
  ⟨m.mutex.dropGuard g.guard⟩

/-- `DeadlockProofNestedMutexGuard::unlock` (lib.rs:227-229): the nested
token is taken by value and discarded unexamined (the binder is `_token`);
the captured permission `self.1` is returned. -/
def DeadlockProofNestedMutexGuard.unlock {T P I : Type}
    (g : DeadlockProofNestedMutexGuard T P I)
    (_token : NestedMutexPermission P I) : P :=
  g.permission

/-- `DeadlockProofNestedMutexGuard::unlock_for_sequential` (lib.rs:236-238):
permitted without the nested token; `SequentialMutexPermission::new(self.1)`. -/
def DeadlockProofNestedMutexGuard.unlock_for_sequential {T P I : Type}
    (g : DeadlockProofNestedMutexGuard T P I) : SequentialMutexPermission P I :=
  SequentialMutexPermission.new g.permission

/-- `Deref for DeadlockProofNestedMutexGuard` (lib.rs:241-249). -/
def DeadlockProofNestedMutexGuard.deref {T P I : Type}
    (g : DeadlockProofNestedMutexGuard T P I) : T :=
  g.guard.value

/-- `DerefMut for DeadlockProofNestedMutexGuard` (lib.rs:251-257), as a
functional write. -/
def DeadlockProofNestedMutexGuard.deref_mut_set {T P I : Type}
    (g : DeadlockProofNestedMutexGuard T P I) (v : T) :
    DeadlockProofNestedMutexGuard T P I :=
  ⟨⟨v⟩, g.permission⟩

/-- The state of the cell after a nested guard's life ends. -/
def DeadlockProofNestedMutexGuard.release {T P I : Type}
    (m : DeadlockProofMutex T P I) (g : DeadlockProofNestedMutexGuard T P I) :
    DeadlockProofMutex T P I :=
  ⟨m.mutex.dropGuard g.guard⟩

/-- A concrete mutex identifier, as `struct MutexA; impl MutexIdentifier for
MutexA {}` in main.rs. -/
structure MutexA where
deriving Repr, DecidableEq

/-!
## Dynamic model of one cell under concurrent use

`DeadlockProofMutex` is `Sync`, so several threads may run `lock` /
`lock_for_nested` on the same cell concurrently.  The interleaved behaviour
of one cell is modelled as a transition system: a deadlock-proof guard is
created only by a `lock` call returning (lib.rs:148-150, 166-171), a `lock`
call returns only once the platform mutex is acquired (`self.0.lock()`),
and the platform mutex is released exactly when the guard's inner
`MutexGuard` is dropped, which ends the guard's life (every release path of
the crate consumes `self`).
-/

/-- A live deadlock-proof guard on one cell: the id of the thread holding
it, and whether it came from `lock` (`nested = false`) or `lock_for_nested`
(`nested = true`). -/
structure LiveGuard where
  tid : Nat
  nested : Bool
deriving Repr, DecidableEq

/-- Dynamic state of one `DeadlockProofMutex` cell: whether its platform
mutex is currently held, and the live deadlock-proof guards on it. -/
structure CellState where
  locked : Bool
  guards : List LiveGuard
deriving Repr, DecidableEq

/-- A fresh cell: platform mutex free, no guard live. -/
def CellState.init : CellState := ⟨false, []⟩

/-- One step of a cell's concurrent behaviour.
* `lockOk`: a thread's `DeadlockProofMutex::lock` returns: possible only
  when the platform mutex is free (the platform provides mutual exclusion;
  a blocked caller does not return), acquires it, and creates the guard.
* `lockNestedOk`: likewise for `lock_for_nested`.
* `releaseGuard`: a live guard's life ends (`unlock`,
  `unlock_for_sequential`, or drop): its inner platform guard is dropped,
  freeing the platform mutex. -/
inductive CellStep : CellState → CellState → Prop where
  | lockOk (s : CellState) (t : Nat) : s.locked = false →
      CellStep s ⟨true, ⟨t, false⟩ :: s.guards⟩
  | lockNestedOk (s : CellState) (t : Nat) : s.locked = false →
      CellStep s ⟨true, ⟨t, true⟩ :: s.guards⟩
  | releaseGuard (s : CellState) (g : LiveGuard) (pre post : List LiveGuard) :
      s.guards = pre ++ g :: post →
      CellStep s ⟨false, pre ++ post⟩

/-- The cell states reachable from a fresh cell by interleaved lock and
release steps of any threads. -/
inductive CellReachable : CellState → Prop where
  | init : CellReachable CellState.init
  | step {s s2 : CellState} : CellReachable s → CellStep s s2 → CellReachable s2

/-!
## Theorems
-/

/-- Once the thread-local slot is drained, every later call of
`OuterMutexPermission::get` panics with the double-claim message and the
slot stays empty. -/
theorem getIter_drained (n : Nat) :
    getIter n none = (RustOutcome.panicked doubleClaimMsg, none) := by
  induction n with
  | zero => rfl
  | succ n ih => simpa [getIter, OuterMutexPermission.get] using ih

/-- Inversion of a successful `DeadlockProofMutex::lock`: the mutex was not
poisoned and the guard is the platform guard on the stored value together
with the consumed permission. -/
theorem lock_ok_inv {T P I : Type} {m : DeadlockProofMutex T P I} {p : P}
    {g : DeadlockProofMutexGuard T P I} (h : m.lock p = Except.ok g) :
    g = ⟨⟨m.mutex.value⟩, p⟩ ∧ m.mutex.poisoned = false := by
  simp only [DeadlockProofMutex.lock, MutexSt.lock] at h
  cases hp : m.mutex.poisoned <;> rw [hp] at h <;> simp [Except.map] at h
  exact ⟨h.symm, rfl⟩

/-- Inversion of a successful `DeadlockProofMutex::lock_for_nested`. -/
theorem lock_for_nested_ok_inv {T P I : Type} {m : DeadlockProofMutex T P I}
    {p : P} {g : DeadlockProofNestedMutexGuard T P I}
    {t : NestedMutexPermission P I}
    (h : m.lock_for_nested p = Except.ok (g, t)) :
    g = ⟨⟨m.mutex.value⟩, p⟩ ∧ m.mutex.poisoned = false := by
  simp only [DeadlockProofMutex.lock_for_nested, MutexSt.lock] at h
  cases hp : m.mutex.poisoned <;> rw [hp] at h <;> simp [Except.map] at h
  exact ⟨h.symm, rfl⟩

/-- Claim C1: for every thread, the thread-local slot starts with exactly
one element; the first call of `OuterMutexPermission::get` returns the
capability; every subsequent call (the `(n+1)`-st, `n ≥ 1`) fails with the
double-claim condition; and the slot is `none` afterwards and is never
refilled (no operation of the crate writes it, so no later call on that
thread ever succeeds again, even after the first permission is dropped). -/
theorem outer_permission_single_per_thread (n : Nat) (h : 1 ≤ n) :
    MUTEX_PERMISSION_TOKEN = some OuterMutexPermission.mk
    ∧ (getIter 0 MUTEX_PERMISSION_TOKEN).1
        = RustOutcome.returned OuterMutexPermission.mk
    ∧ (getIter n MUTEX_PERMISSION_TOKEN).1
        = RustOutcome.panicked doubleClaimMsg
    ∧ (getIter n MUTEX_PERMISSION_TOKEN).2 = none := by
  obtain ⟨m, rfl⟩ : ∃ m, n = m + 1 := ⟨n - 1, by omega⟩
  refine ⟨rfl, rfl, ?_, ?_⟩ <;>
    simp [getIter, MUTEX_PERMISSION_TOKEN, OuterMutexPermission.get,
      getIter_drained]

/-- Witness for C1 at `n = 1`. -/
theorem outer_permission_single_per_thread_witness :
    1 ≤ 1
    ∧ (MUTEX_PERMISSION_TOKEN = some OuterMutexPermission.mk
       ∧ (getIter 0 MUTEX_PERMISSION_TOKEN).1
           = RustOutcome.returned OuterMutexPermission.mk
       ∧ (getIter 1 MUTEX_PERMISSION_TOKEN).1
           = RustOutcome.panicked doubleClaimMsg
       ∧ (getIter 1 MUTEX_PERMISSION_TOKEN).2 = none) :=
  ⟨Nat.le_refl 1, outer_permission_single_per_thread 1 (Nat.le_refl 1)⟩

/-- Claim C2 counterexample: the second call of `OuterMutexPermission::get`
on a thread fails by panicking (unwinding) with the documented message —
its outcome is not a returned value, contradicting the claim that the
failure is reported as a returned error value rather than by panicking. -/
theorem second_get_panics_not_returns :
    (getIter 1 MUTEX_PERMISSION_TOKEN).1 = RustOutcome.panicked doubleClaimMsg
    ∧ (getIter 1 MUTEX_PERMISSION_TOKEN).1.isReturned = false :=
  ⟨rfl, rfl⟩

/-- Claim C2 (amended): the `Poisoned` error of both lock operations is
surfaced by return value, while the double-claim failure of a repeated
`OuterMutexPermission::get` on a thread is surfaced by panicking
(unwinding) with the documented message, not as a returned error value. -/
theorem poisoned_returned_doubleclaim_panics {T P I : Type}
    (m : DeadlockProofMutex T P I) (p q : P) (h : m.mutex.poisoned = true) :
    m.lock p = Except.error ⟨⟨m.mutex.value⟩⟩
    ∧ m.lock_for_nested q = Except.error ⟨⟨m.mutex.value⟩⟩
    ∧ (getIter 1 MUTEX_PERMISSION_TOKEN).1
        = RustOutcome.panicked doubleClaimMsg
    ∧ (getIter 1 MUTEX_PERMISSION_TOKEN).1.isReturned = false := by
  refine ⟨?_, ?_, rfl, rfl⟩ <;>
    simp [DeadlockProofMutex.lock, DeadlockProofMutex.lock_for_nested,
      MutexSt.lock, h, Except.map]

/-- Witness for the amended C2, on a poisoned cell holding `5`. -/
theorem poisoned_returned_doubleclaim_panics_witness :
    (⟨⟨5, true⟩⟩ : DeadlockProofMutex Nat OuterMutexPermission MutexA).mutex.poisoned = true
    ∧ ((⟨⟨5, true⟩⟩ : DeadlockProofMutex Nat OuterMutexPermission MutexA).lock
          OuterMutexPermission.mk = Except.error ⟨⟨5⟩⟩
       ∧ (⟨⟨5, true⟩⟩ : DeadlockProofMutex Nat OuterMutexPermission MutexA).lock_for_nested
           OuterMutexPermission.mk = Except.error ⟨⟨5⟩⟩
       ∧ (getIter 1 MUTEX_PERMISSION_TOKEN).1
           = RustOutcome.panicked doubleClaimMsg
       ∧ (getIter 1 MUTEX_PERMISSION_TOKEN).1.isReturned = false) :=
  ⟨rfl, poisoned_returned_doubleclaim_panics
    (⟨⟨5, true⟩⟩ : DeadlockProofMutex Nat OuterMutexPermission MutexA)
    OuterMutexPermission.mk OuterMutexPermission.mk rfl⟩

/-- Claim C3: lock followed by unlock is a round trip on the permission:
if `DeadlockProofMutex::lock p` succeeds, the returned guard captures `p`,
and `unlock` on that guard returns exactly `p`. -/
theorem lock_unlock_round_trip {T P I : Type} (m : DeadlockProofMutex T P I)
    (p : P) (g : DeadlockProofMutexGuard T P I)
    (h : m.lock p = Except.ok g) :
    g.permission = p ∧ g.unlock = p := by
  obtain ⟨rfl, -⟩ := lock_ok_inv h
  exact ⟨rfl, rfl⟩

/-- Witness for C3: a fresh cell holding `0` with the root permission. -/
theorem lock_unlock_round_trip_witness :
    (DeadlockProofMutex.new 0 MutexA.mk :
        DeadlockProofMutex Nat OuterMutexPermission MutexA).lock
        OuterMutexPermission.mk
      = Except.ok ⟨⟨0⟩, OuterMutexPermission.mk⟩
    ∧ ((⟨⟨0⟩, OuterMutexPermission.mk⟩ :
          DeadlockProofMutexGuard Nat OuterMutexPermission MutexA).permission
          = OuterMutexPermission.mk
       ∧ (⟨⟨0⟩, OuterMutexPermission.mk⟩ :
          DeadlockProofMutexGuard Nat OuterMutexPermission MutexA).unlock
          = OuterMutexPermission.mk) :=
  ⟨rfl, lock_unlock_round_trip
    (DeadlockProofMutex.new 0 MutexA.mk) OuterMutexPermission.mk
    ⟨⟨0⟩, OuterMutexPermission.mk⟩ rfl⟩

/-- Claim C4: sequential rewind is a round trip: on a plain or nested guard
capturing permission `p`, `unlock_for_sequential` returns the sequential
permission wrapping `p`, and `to_earlier` on it returns exactly `p`; on the
nested guard, `unlock_for_sequential` takes no nested capability. -/
theorem sequential_rewind_round_trip {T P I : Type}
    (g : DeadlockProofMutexGuard T P I)
    (gn : DeadlockProofNestedMutexGuard T P I) :
    g.unlock_for_sequential = SequentialMutexPermission.new g.permission
    ∧ g.unlock_for_sequential.to_earlier = g.permission
    ∧ gn.unlock_for_sequential = SequentialMutexPermission.new gn.permission
    ∧ gn.unlock_for_sequential.to_earlier = gn.permission :=
  ⟨rfl, rfl, rfl, rfl⟩

/-- Claim C5: a successful `lock_for_nested p` returns a nested guard
capturing `p` together with the fresh nested capability, and `unlock` on
that guard, given the capability back, returns exactly `p`. -/
theorem lock_for_nested_round_trip {T P I : Type}
    (m : DeadlockProofMutex T P I) (p : P)
    (g : DeadlockProofNestedMutexGuard T P I)
    (t : NestedMutexPermission P I)
    (h : m.lock_for_nested p = Except.ok (g, t)) :
    g.permission = p ∧ t = ⟨⟩ ∧ g.unlock t = p := by
  obtain ⟨rfl, -⟩ := lock_for_nested_ok_inv h
  exact ⟨rfl, rfl, rfl⟩

/-- Witness for C5: a fresh cell holding `0` with the root permission. -/
theorem lock_for_nested_round_trip_witness :
    (DeadlockProofMutex.new 0 MutexA.mk :
        DeadlockProofMutex Nat OuterMutexPermission MutexA).lock_for_nested
        OuterMutexPermission.mk
      = Except.ok (⟨⟨0⟩, OuterMutexPermission.mk⟩, NestedMutexPermission.mk)
    ∧ ((⟨⟨0⟩, OuterMutexPermission.mk⟩ :
          DeadlockProofNestedMutexGuard Nat OuterMutexPermission MutexA).permission
          = OuterMutexPermission.mk
       ∧ (NestedMutexPermission.mk :
            NestedMutexPermission OuterMutexPermission MutexA)
          = NestedMutexPermission.mk
       ∧ (⟨⟨0⟩, OuterMutexPermission.mk⟩ :
          DeadlockProofNestedMutexGuard Nat OuterMutexPermission MutexA).unlock
          NestedMutexPermission.mk = OuterMutexPermission.mk) :=
  ⟨rfl, lock_for_nested_round_trip
    (DeadlockProofMutex.new 0 MutexA.mk) OuterMutexPermission.mk
    ⟨⟨0⟩, OuterMutexPermission.mk⟩ NestedMutexPermission.mk rfl⟩

/-- Claim C6: both lock operations propagate the platform poison error
verbatim: on a poisoned cell they return exactly the error the platform
`Mutex::lock` produces (carrying the recovery handle); releasing a guard
leaves the cell poisoned, so every subsequent lock keeps returning the
poison error, until `clear_poison` explicitly resets the flag, after which
`lock` succeeds again. -/
theorem poison_propagated_verbatim {T P I : Type}
    (m : DeadlockProofMutex T P I) (p q r : P)
    (h : m.mutex.poisoned = true) :
    (∃ e, m.mutex.lock = Except.error e
        ∧ m.lock p = Except.error e
        ∧ m.lock_for_nested q = Except.error e)
    ∧ (∀ g : DeadlockProofMutexGuard T P I,
        (DeadlockProofMutexGuard.release m g).mutex.poisoned = true
        ∧ (DeadlockProofMutexGuard.release m g).lock r
            = Except.error ⟨⟨g.guard.value⟩⟩)
    ∧ m.mutex.clear_poison.poisoned = false
    ∧ (⟨m.mutex.clear_poison⟩ : DeadlockProofMutex T P I).lock p
        = Except.ok ⟨⟨m.mutex.value⟩, p⟩ := by
  refine ⟨⟨⟨⟨m.mutex.value⟩⟩, ?_, ?_, ?_⟩, ?_, rfl, ?_⟩
  · simp [MutexSt.lock, h]
  · simp [DeadlockProofMutex.lock, MutexSt.lock, h, Except.map]
  · simp [DeadlockProofMutex.lock_for_nested, MutexSt.lock, h, Except.map]
  · intro g
    refine ⟨?_, ?_⟩
    · simp [DeadlockProofMutexGuard.release, MutexSt.dropGuard, h]
    · simp [DeadlockProofMutexGuard.release, MutexSt.dropGuard,
        DeadlockProofMutex.lock, MutexSt.lock, h, Except.map]
  · simp [DeadlockProofMutex.lock, MutexSt.lock, MutexSt.clear_poison,
      Except.map]

/-- Witness for C6: a poisoned cell holding `5`, root permissions. -/
theorem poison_propagated_verbatim_witness :
    (⟨⟨5, true⟩⟩ : DeadlockProofMutex Nat OuterMutexPermission MutexA).mutex.poisoned = true
    ∧ ((∃ e, (⟨⟨5, true⟩⟩ : DeadlockProofMutex Nat OuterMutexPermission MutexA).mutex.lock
            = Except.error e
          ∧ (⟨⟨5, true⟩⟩ : DeadlockProofMutex Nat OuterMutexPermission MutexA).lock
              OuterMutexPermission.mk = Except.error e
          ∧ (⟨⟨5, true⟩⟩ : DeadlockProofMutex Nat OuterMutexPermission MutexA).lock_for_nested
              OuterMutexPermission.mk = Except.error e)
       ∧ (∀ g : DeadlockProofMutexGuard Nat OuterMutexPermission MutexA,
           (DeadlockProofMutexGuard.release
               (⟨⟨5, true⟩⟩ : DeadlockProofMutex Nat OuterMutexPermission MutexA)
               g).mutex.poisoned = true
           ∧ (DeadlockProofMutexGuard.release
               (⟨⟨5, true⟩⟩ : DeadlockProofMutex Nat OuterMutexPermission MutexA)
               g).lock OuterMutexPermission.mk = Except.error ⟨⟨g.guard.value⟩⟩)
       ∧ (⟨⟨5, true⟩⟩ : DeadlockProofMutex Nat OuterMutexPermission MutexA).mutex.clear_poison.poisoned
           = false
       ∧ (⟨(⟨⟨5, true⟩⟩ : DeadlockProofMutex Nat OuterMutexPermission MutexA).mutex.clear_poison⟩ :
              DeadlockProofMutex Nat OuterMutexPermission MutexA).lock
            OuterMutexPermission.mk
          = Except.ok ⟨⟨5⟩, OuterMutexPermission.mk⟩) :=
  ⟨rfl, poison_propagated_verbatim
    (⟨⟨5, true⟩⟩ : DeadlockProofMutex Nat OuterMutexPermission MutexA)
    OuterMutexPermission.mk OuterMutexPermission.mk OuterMutexPermission.mk rfl⟩

/-- Claim C7: `DeadlockProofMutex::new v id` stores exactly `v` (and the
identity witness only fixes the type: two witnesses give equal cells); the
first successful lock's guard dereferences to `v`; and after writing `w`
through the guard and releasing it, a subsequent lock observes `w`, and so
does the lock after releasing that guard unchanged. -/
theorem new_stores_value_and_writes_persist {T P I : Type}
    (v w : T) (i1 i2 : I) (p q r : P) :
    (DeadlockProofMutex.new v i1 : DeadlockProofMutex T P I)
      = DeadlockProofMutex.new v i2
    ∧ (DeadlockProofMutex.new v i1 : DeadlockProofMutex T P I).mutex.value = v
    ∧ (DeadlockProofMutex.new v i1 : DeadlockProofMutex T P I).lock p
        = Except.ok ⟨⟨v⟩, p⟩
    ∧ (⟨⟨v⟩, p⟩ : DeadlockProofMutexGuard T P I).deref = v
    ∧ (DeadlockProofMutexGuard.release
          (DeadlockProofMutex.new v i1)
          ((⟨⟨v⟩, p⟩ : DeadlockProofMutexGuard T P I).deref_mut_set w)).lock q
        = Except.ok ⟨⟨w⟩, q⟩
    ∧ (⟨⟨w⟩, q⟩ : DeadlockProofMutexGuard T P I).deref = w
    ∧ (DeadlockProofMutexGuard.release
          (DeadlockProofMutexGuard.release
            (DeadlockProofMutex.new v i1)
            ((⟨⟨v⟩, p⟩ : DeadlockProofMutexGuard T P I).deref_mut_set w))
          ⟨⟨w⟩, q⟩).lock r
        = Except.ok ⟨⟨w⟩, r⟩ :=
  ⟨rfl, rfl, rfl, rfl, rfl, rfl, rfl⟩

/-- Claim C8 invariant: in every reachable cell state, at most one guard is
live, and when the platform mutex is free no guard is live. -/
theorem cell_reachable_invariant {s : CellState} (h : CellReachable s) :
    s.guards.length ≤ 1 ∧ (s.locked = false → s.guards = []) := by
  induction h with
  | init => exact ⟨by simp [CellState.init], fun _ => rfl⟩
  | step hr hstep ih =>
    cases hstep with
    | lockOk t hl =>
      have hempty := ih.2 hl
      exact ⟨by simp [hempty], by simp⟩
    | lockNestedOk t hl =>
      have hempty := ih.2 hl
      exact ⟨by simp [hempty], by simp⟩
    | releaseGuard g pre post hsplit =>
      have hlen := ih.1
      rw [hsplit] at hlen
      simp only [List.length_append, List.length_cons] at hlen
      have hpre : pre.length = 0 := by omega
      have hpost : post.length = 0 := by omega
      rw [List.length_eq_zero] at hpre hpost
      subst hpre
      subst hpost
      exact ⟨by simp, fun _ => rfl⟩

/-- Claim C8: mutual exclusion of the protected value: in every cell state
reachable under the interleaved concurrent behaviour of the cell, at most
one guard (plain or nested) on that cell is live, across all threads. -/
theorem mutual_exclusion_of_guards {s : CellState} (h : CellReachable s) :
    s.guards.length ≤ 1 :=
  (cell_reachable_invariant h).1

/-- Witness for C8: the state just after thread `0` locked the cell. -/
theorem mutual_exclusion_of_guards_witness :
    CellReachable ⟨true, [⟨0, false⟩]⟩
    ∧ (⟨true, [⟨0, false⟩]⟩ : CellState).guards.length ≤ 1 :=
  ⟨CellReachable.step CellReachable.init (CellStep.lockOk CellState.init 0 rfl),
   mutual_exclusion_of_guards
     (CellReachable.step CellReachable.init (CellStep.lockOk CellState.init 0 rfl))⟩

/-- Claim C9: the nested guard's `unlock` discards the nested token
unexamined: for any two tokens of the matching type, both calls succeed and
both return exactly the captured permission. -/
theorem nested_unlock_ignores_token {T P I : Type}
    (g : DeadlockProofNestedMutexGuard T P I)
    (t1 t2 : NestedMutexPermission P I) :
    g.unlock t1 = g.permission
    ∧ g.unlock t2 = g.permission
    ∧ g.unlock t1 = g.unlock t2 :=
  ⟨rfl, rfl, rfl⟩

/-- Claim C10: release and capability transformation leave the protected
value unchanged: after releasing a guard (plain or nested) the cell holds
exactly the guard's last written value and the poison flag is untouched;
`unlock`, `unlock_for_sequential` and the nested `unlock` depend only on
the captured permission, not on the cell's value; and `to_earlier` is a
pure function of the sequential permission, touching no cell. -/
theorem release_frame {T P I : Type} (m : DeadlockProofMutex T P I)
    (g : DeadlockProofMutexGuard T P I)
    (gn : DeadlockProofNestedMutexGuard T P I)
    (s : SequentialMutexPermission P I) (t : NestedMutexPermission P I)
    (a b : T) (p : P) :
    (DeadlockProofMutexGuard.release m g).mutex.value = g.guard.value
    ∧ (DeadlockProofMutexGuard.release m g).mutex.poisoned = m.mutex.poisoned
    ∧ (DeadlockProofNestedMutexGuard.release m gn).mutex.value = gn.guard.value
    ∧ (DeadlockProofNestedMutexGuard.release m gn).mutex.poisoned
        = m.mutex.poisoned
    ∧ g.unlock = g.permission
    ∧ g.unlock_for_sequential = SequentialMutexPermission.new g.permission
    ∧ gn.unlock t = gn.permission
    ∧ gn.unlock_for_sequential = SequentialMutexPermission.new gn.permission
    ∧ (⟨⟨a⟩, p⟩ : DeadlockProofMutexGuard T P I).unlock
        = (⟨⟨b⟩, p⟩ : DeadlockProofMutexGuard T P I).unlock
    ∧ (⟨⟨a⟩, p⟩ : DeadlockProofNestedMutexGuard T P I).unlock t
        = (⟨⟨b⟩, p⟩ : DeadlockProofNestedMutexGuard T P I).unlock t
    ∧ s.to_earlier = s.perm :=
  ⟨rfl, rfl, rfl, rfl, rfl, rfl, rfl, rfl, rfl, rfl, rfl⟩
